import Mathlib

/-!
Shallow embedding of the `jira-stalebot` repository (Go) for checking its
natural-language specification.

The repository's core is `Config.IssueOperation` (operations.go), the pure
staleness decision function, together with the config loader/validator
(config.go), the JQL query builder, and the run loop (stalebot.go) that
dispatches operations through the Jira client.  The source tree carries two
revisions of the run-loop file; the one consistent with the CLI entrypoint
in `main.go` (it has the `Prompt` field and performs label-delta updates) is
the one modelled here.  Jira client calls are modelled as a trace of
`ClientCall` values; the paged search is abstracted to the full list of
issues it returns.  Go `time.Time` values are modelled as integer
nanoseconds since an arbitrary epoch; Go `time.Duration` arithmetic (int64)
wraps at 2^63, which `int64Wrap` makes explicit.
-/

namespace Stalebot

/-- Key of the Jira "done" status category (`jira.StatusCategoryComplete`). -/
def statusCategoryComplete : String := "done"

structure StatusCategory where
  key : String
deriving DecidableEq

structure Status where
  statusCategory : StatusCategory
deriving DecidableEq

/-- One item of a changelog history entry (`jira.ChangelogItems`). -/
structure ChangelogItem where
  field : String
  fromString : String
  toString : String
deriving DecidableEq

/-- One changelog history entry (`jira.ChangelogHistory`). -/
structure ChangelogHistory where
  items : List ChangelogItem
deriving DecidableEq

structure Changelog where
  histories : List ChangelogHistory
deriving DecidableEq

/-- The part of a `jira.Issue` read by the stalebot: key, labels, status,
updated timestamp (integer nanoseconds) and the optional changelog
(`nil` pointer in Go becomes `none`). -/
structure Issue where
  key : String
  labels : List String
  status : Status
  updated : Int
  changelog : Option Changelog
deriving DecidableEq

/-- `Config` from config.go (all fields). -/
structure Config where
  jiraBaseURL : String
  project : String
  daysUntilStale : Int
  daysUntilClose : Int
  onlyLabels : List String
  exemptLabels : List String
  staleLabel : String
  markComment : String
  unmarkComment : String
  closeStatus : String
  closeComment : String
  limitPerRun : Int
deriving DecidableEq

/-- `Operation` from operations.go. -/
inductive Operation where
  | None
  | AddStaleLabel
  | RemoveStaleLabel
  | Close
deriving DecidableEq

/-- `sets.String.Has`: membership of a label in a label set. -/
def hasLabel (labels : List String) (l : String) : Bool :=
  labels.contains l

/-- `sets.String.HasAny`: true when some item is in the set. -/
def hasAnyLabel (labels : List String) (items : List String) : Bool :=
  items.any (fun l => labels.contains l)

/-- `sets.String.HasAll`: true when every item is in the set
(vacuously true for an empty item list). -/
def hasAllLabels (labels : List String) (items : List String) : Bool :=
  items.all (fun l => labels.contains l)

/-- Split a character list at every space, keeping empty segments
(the behaviour of Go `strings.Split(s, " ")`). -/
def splitCharsOnSpace : List Char → List (List Char)
  | [] => [[]]
  | ch :: rest =>
    match splitCharsOnSpace rest with
    | [] => [[ch]]
    | t :: ts => if ch = ' ' then [] :: t :: ts else (ch :: t) :: ts

/-- Go `strings.Split(s, " ")`. -/
def splitOnSpace (s : String) : List String :=
  (splitCharsOnSpace s.toList).map (fun cs => String.mk cs)

/-- `lastUpdateAddedStaleLabel` from operations.go: look only at the final
changelog history entry; among its items, find a `labels` item whose
whitespace-split from-string lacks `staleLabel` while the to-string has it. -/
def lastUpdateAddedStaleLabel (i : Issue) (staleLabel : String) : Bool :=
  match i.changelog with
  | some changelog =>
      match changelog.histories.getLast? with
      | some lastUpdate =>
          lastUpdate.items.any fun item =>
            item.field = "labels" &&
              (let fromSet := splitOnSpace item.fromString
               let toSet := splitOnSpace item.toString
               !(fromSet.contains staleLabel) && toSet.contains staleLabel)
      | none => false
  | none => false

/-- Wraparound of Go `int64` arithmetic (`time.Duration` products). -/
def int64Wrap (n : Int) : Int :=
  (n + 9223372036854775808) % 18446744073709551616 - 9223372036854775808

/-- Nanoseconds in `time.Hour`. -/
def hourNs : Int := 3600000000000

/-- `now.Add(-time.Hour * 24 * time.Duration(days))`: the threshold time
against which the issue's updated time is compared. -/
def staleThreshold (now days : Int) : Int :=
  now + int64Wrap (-(hourNs * 24) * days)

/-- Steps 1-3 of the staleness lifecycle in `IssueOperation` (operations.go),
reached after the terminal-status guard and the eligibility filter fall
through. -/
def stalenessSteps (c : Config) (now : Int) (i : Issue) (issueLabels : List String) : Operation :=
  if !(hasLabel issueLabels c.staleLabel) then
    -- Step 1: add a stale label unless updated within daysUntilStale.
    if i.updated > staleThreshold now c.daysUntilStale then Operation.None
    else Operation.AddStaleLabel
  else if lastUpdateAddedStaleLabel i c.staleLabel then
    -- Step 2: close unless updated within daysUntilClose.
    if i.updated > staleThreshold now c.daysUntilClose then Operation.None
    else Operation.Close
  else
    -- Step 3: an update happened after marking; unmark.
    Operation.RemoveStaleLabel

/-- `Config.IssueOperation` from operations.go: the pure decision function. -/
def IssueOperation (c : Config) (now : Int) (i : Issue) : Operation :=
  if i.status.statusCategory.key = statusCategoryComplete then
    -- No updates to issues that are complete.
    Operation.None
  else
    let issueLabels := i.labels
    if c.exemptLabels.length > 0 then
      if hasAnyLabel issueLabels c.exemptLabels then Operation.None
      else stalenessSteps c now i issueLabels
    else if hasAllLabels issueLabels c.onlyLabels then Operation.None
    else stalenessSteps c now i issueLabels

/-- The fall-through condition of the eligibility filter (the second guard of
`IssueOperation`): with a non-empty `exemptLabels` the issue must carry none
of them; otherwise the issue must be missing at least one of `onlyLabels`. -/
def passesEligibility (c : Config) (i : Issue) : Bool :=
  if c.exemptLabels.length > 0 then !(hasAnyLabel i.labels c.exemptLabels)
  else !(hasAllLabels i.labels c.onlyLabels)

/-- An issue on which `IssueOperation` reaches the staleness steps: it is not
in the terminal status category and it falls through the eligibility
filter. -/
def Eligible (c : Config) (i : Issue) : Prop :=
  i.status.statusCategory.key ≠ statusCategoryComplete ∧ passesEligibility c i = true

theorem eligible_issueOperation (c : Config) (now : Int) (i : Issue)
    (h : Eligible c i) :
    IssueOperation c now i = stalenessSteps c now i i.labels := by
  obtain ⟨h1, h2⟩ := h
  unfold IssueOperation
  rw [if_neg h1]
  unfold passesEligibility at h2
  by_cases hex : c.exemptLabels.length > 0
  · rw [if_pos hex] at h2 ⊢
    simp only [Bool.not_eq_true'] at h2
    rw [h2]
    simp
  · rw [if_neg hex] at h2 ⊢
    simp only [Bool.not_eq_true'] at h2
    rw [h2]
    simp

/-! ## Query builder (config.go) -/

/-- A structured view of one JQL `AND` clause produced by the query builder;
`renderClause` gives the exact string `fmt.Sprintf` produces in the Go code. -/
inductive JQLClause where
  | projectEq (p : String)
  | statusCategoryNotDone
  | labelsNotInOrEmpty (ls : List String)
  | labelsEq (l : String)
deriving DecidableEq

def renderClause : JQLClause → String
  | JQLClause.projectEq p => "project = " ++ p
  | JQLClause.statusCategoryNotDone => "statusCategory != Done"
  | JQLClause.labelsNotInOrEmpty ls =>
      "(labels not in (" ++ String.intercalate "," ls ++ ") OR labels is EMPTY)"
  | JQLClause.labelsEq l => "labels = " ++ l

/-- `Config.exemptOrOnlyLabels` from config.go, at the clause level. -/
def exemptOrOnlyLabels (c : Config) : List JQLClause :=
  if c.exemptLabels.length > 0 then [JQLClause.labelsNotInOrEmpty c.exemptLabels]
  else if c.onlyLabels.length > 0 then c.onlyLabels.map JQLClause.labelsEq
  else []

/-- `completeQuery` from config.go. -/
def completeQuery (ands : List String) : String :=
  String.intercalate " AND " ands ++ " ORDER BY updatedDate DESC"

/-- `Config.EligibleIssuesQuery` from config.go. -/
def EligibleIssuesQuery (c : Config) : String :=
  completeQuery
    (([JQLClause.projectEq c.project, JQLClause.statusCategoryNotDone] ++
        exemptOrOnlyLabels c).map renderClause)

/-- Satisfaction of a single query clause by an issue's fields (JQL
semantics of the clauses the builder emits; the project clause is not
reflected in the issue snapshot and holds trivially). -/
def satisfiesClause (i : Issue) : JQLClause → Bool
  | JQLClause.projectEq _ => true
  | JQLClause.statusCategoryNotDone => i.status.statusCategory.key != statusCategoryComplete
  | JQLClause.labelsNotInOrEmpty ls => ls.all (fun l => !(i.labels.contains l))
  | JQLClause.labelsEq l => i.labels.contains l

/-! ## Config defaults and validation (config.go) -/

def defaultStaleLabel : String := "lifecycle-stale"
def defaultDaysUntilStale : Int := 90
def defaultDaysUntilClose : Int := 14
def defaultLimitPerRun : Int := 100

/-- Go `%q` of a string with no characters needing escapes. -/
def quoteString (s : String) : String := "\"" ++ s ++ "\""

/-- `defaultMarkCommentFunc` from config.go. -/
def defaultMarkCommentFunc (c : Config) : String :=
  "[STALEBOT COMMENT] This issue is stale because it has not had activity for " ++
    toString c.daysUntilStale ++ " days. Comment, remove label " ++
    quoteString c.staleLabel ++
    ", or make any another update to this issue to avoid closure in " ++
    toString c.daysUntilClose ++ " days."

/-- `defaultUnmarkCommentFunc` from config.go. -/
def defaultUnmarkCommentFunc (c : Config) : String :=
  "[STALEBOT COMMENT] A recent update was detected, so this issue is no longer stale. Removing stale label " ++
    quoteString c.staleLabel ++ "."

/-- `Config.setDefaults` from config.go; the field updates happen in source
order, so the defaulted comments see the already-defaulted other fields. -/
def setDefaults (c : Config) : Config :=
  let c := if c.staleLabel = "" then { c with staleLabel := defaultStaleLabel } else c
  let c := if c.daysUntilStale ≤ 0 then { c with daysUntilStale := defaultDaysUntilStale } else c
  let c := if c.daysUntilClose ≤ 0 then { c with daysUntilClose := defaultDaysUntilClose } else c
  let c := if c.limitPerRun ≤ 0 then { c with limitPerRun := defaultLimitPerRun } else c
  let c := if c.markComment = "" then { c with markComment := defaultMarkCommentFunc c } else c
  let c := if c.unmarkComment = "" then { c with unmarkComment := defaultUnmarkCommentFunc c } else c
  c

/-- `isValidProjectKey` from config.go: Go regexp `^[A-Z]{2,}$`. -/
def isValidProjectKey (project : String) : Bool :=
  project.toList.length ≥ 2 &&
    project.toList.all (fun ch => 'A' ≤ ch && ch ≤ 'Z')

/-- `isValidLabel` from config.go: Go regexp `^[0-9A-Za-z-]+$`. -/
def isValidLabel (label : String) : Bool :=
  label.toList ≠ [] &&
    label.toList.all (fun ch =>
      ('0' ≤ ch && ch ≤ '9') || ('A' ≤ ch && ch ≤ 'Z') ||
        ('a' ≤ ch && ch ≤ 'z') || ch = '-')

/-- `isValidStatusName` from config.go. -/
def isValidStatusName (name : String) : Bool :=
  name.length > 0 && !(name.toList.contains '\"')

/-- The list of validation error messages `Config.Validate` collects, in
source order. -/
def validateErrors (c : Config) : List String :=
  (if c.jiraBaseURL = "" then ["config must specify `jiraBaseURL`"] else []) ++
  (if !(isValidProjectKey c.project) then
      ["config must specify valid project key (two or more uppercase letters)"] else []) ++
  (if c.onlyLabels.length > 0 && c.exemptLabels.length > 0 then
      ["config must not specify both onlyLabels and exemptLabels"] else []) ++
  (c.onlyLabels.filterMap fun l =>
    if !(isValidLabel l) then
      some ("config contains invalid label `" ++ l ++ "` in onlyLabels") else none) ++
  (c.exemptLabels.filterMap fun l =>
    if !(isValidLabel l) then
      some ("config contains invalid label `" ++ l ++ "` in exemptLabels") else none) ++
  (if !(isValidLabel c.staleLabel) then
      ["config must not specify invalid staleLabel `" ++ c.staleLabel ++ "`"] else []) ++
  (if !(isValidStatusName c.closeStatus) then
      ["config must not specify invalid closeStatus `" ++ c.closeStatus ++ "`"] else [])

/-- `newAggregateError` from config.go: `nil` for no errors, the sole error
verbatim, or the `multiple errors: ...` aggregate message. -/
def newAggregateError (errs : List String) : Option String :=
  match errs with
  | [] => none
  | [e] => some e
  | _ => some ("multiple errors: " ++ String.intercalate "; " errs)

/-- `Config.Validate` from config.go. -/
def Validate (c : Config) : Option String :=
  newAggregateError (validateErrors c)

/-! ## Run loop and dispatch (stalebot.go, the revision used by main.go) -/

/-- A Jira client call made by the dispatch helpers, in the order issued. -/
inductive ClientCall where
  | addComment (body : String)
  | updateAddLabel (label : String)
  | updateRemoveLabel (label : String)
  | getTransitions
  | doTransition (id : String)
deriving DecidableEq

/-- An available workflow transition (`jira.Transition`): its id and the
name of the status it leads to (`t.To.Name`). -/
structure Transition where
  id : String
  toName : String
deriving DecidableEq

/-- `transitionID` from stalebot.go: the first transition whose target status
name equals `statusName`, or the "no transition found" error. -/
def transitionID (transitions : List Transition) (statusName : String) :
    Except String String :=
  match transitions.find? (fun t => t.toName = statusName) with
  | some t => Except.ok t.id
  | none => Except.error ("no transition found to status " ++ quoteString statusName)

/-- `Stalebot.addStaleLabel` from stalebot.go: the mark comment is posted
first, then the label-add update is sent. -/
def addStaleLabelCalls (c : Config) : List ClientCall × Option String :=
  ([ClientCall.addComment c.markComment, ClientCall.updateAddLabel c.staleLabel], none)

/-- `Stalebot.removeStaleLabel` from stalebot.go: the unmark comment is
posted first, then the label-remove update is sent. -/
def removeStaleLabelCalls (c : Config) : List ClientCall × Option String :=
  ([ClientCall.addComment c.unmarkComment, ClientCall.updateRemoveLabel c.staleLabel], none)

/-- `Stalebot.closeIssue` from stalebot.go: fetch the transitions, resolve
the transition id for `closeStatus`, and only on success execute the
transition and post the close comment. -/
def closeIssueCalls (c : Config) (transitions : List Transition) :
    List ClientCall × Option String :=
  match transitionID transitions c.closeStatus with
  | Except.ok tID =>
      ([ClientCall.getTransitions, ClientCall.doTransition tID,
        ClientCall.addComment c.closeComment], none)
  | Except.error e =>
      ([ClientCall.getTransitions], some ("get transition ID: " ++ e))

/-- The `switch op` dispatch in `Stalebot.Run`. -/
def dispatchOp (c : Config) (transitions : List Transition) :
    Operation → List ClientCall × Option String
  | Operation.None => ([], none)
  | Operation.AddStaleLabel => addStaleLabelCalls c
  | Operation.RemoveStaleLabel => removeStaleLabelCalls c
  | Operation.Close => closeIssueCalls c transitions

/-- The Go string value of an `Operation` (it is a string type in Go). -/
def opString : Operation → String
  | Operation.None => "None"
  | Operation.AddStaleLabel => "AddStaleLabel"
  | Operation.RemoveStaleLabel => "RemoveStaleLabel"
  | Operation.Close => "Close"

/-- The per-issue body of `Stalebot.Run`, folded over the full search result
(pagination abstracted away).  `tf` gives each issue's available
transitions, `confirm` models the interactive prompt's answer.  Returns the
list of dispatched (issue key, operation) pairs, the client-call trace, and
the error that aborted the run, if any. -/
def runLoop (c : Config) (now : Int) (tf : String → List Transition)
    (dryRun : Bool) (usePrompt : Bool) (confirm : Operation → Issue → Bool) :
    List Issue → List (String × Operation) × List ClientCall × Option String
  | [] => ([], [], none)
  | i :: rest =>
    let op := IssueOperation c now i
    if op = Operation.None then
      runLoop c now tf dryRun usePrompt confirm rest
    else if usePrompt && !(confirm op i) then
      runLoop c now tf dryRun usePrompt confirm rest
    else if dryRun then
      runLoop c now tf dryRun usePrompt confirm rest
    else
      match dispatchOp c (tf i.key) op with
      | (calls, some e) =>
          ([(i.key, op)], calls,
            some ("operation " ++ quoteString (opString op) ++ " failed on issue " ++
              quoteString i.key ++ ": " ++ e))
      | (calls, none) =>
          let (ops, restCalls, err) := runLoop c now tf dryRun usePrompt confirm rest
          ((i.key, op) :: ops, calls ++ restCalls, err)

/-! ## Concrete fixtures used by witnesses and counterexamples -/

/-- Nanoseconds in a day. -/
def dayNs : Int := 86400000000000

/-- A valid configuration using `exemptLabels` (mirrors the repo's tests). -/
def exampleConfig : Config :=
  ⟨"https://jira.example.com", "AB", 90, 14, [], ["lifecycle-frozen"],
   "lifecycle-stale", "mark", "unmark", "Done", "close", 100⟩

/-- A changelog whose last (only) history entry added the stale label. -/
def addedChangelog : Changelog := ⟨[⟨[⟨"labels", "", "lifecycle-stale"⟩]⟩]⟩

/-- A changelog whose last (only) history entry changed unrelated labels. -/
def otherChangelog : Changelog := ⟨[⟨[⟨"labels", "foo", "bar"⟩]⟩]⟩

/-- Transitions table mapping every issue to no available transitions. -/
def noTransitions : String → List Transition := fun _ => []

/-- Prompt model that confirms every operation. -/
def alwaysConfirm : Operation → Issue → Bool := fun _ _ => true

/-! ## Claim C9 -/

/-- C9: for every issue whose status category is the terminal ("done")
category, `IssueOperation` returns `None`, for all labels, timestamps,
changelogs and configs. -/
theorem c9_terminal_status_none (c : Config) (now : Int) (i : Issue)
    (h : i.status.statusCategory.key = statusCategoryComplete) :
    IssueOperation c now i = Operation.None := by
  unfold IssueOperation
  rw [if_pos h]

def doneIssue : Issue :=
  ⟨"TEST-9", ["lifecycle-stale"], ⟨⟨"done"⟩⟩, -(86400000000000 * 120), some ⟨[]⟩⟩

/-- Witness for C9 at a concrete done issue. -/
theorem c9_terminal_status_none_witness :
    IssueOperation exampleConfig 0 doneIssue = Operation.None :=
  c9_terminal_status_none exampleConfig 0 doneIssue (by decide)

/-! ## Claim C1 -/

/-- A config whose `exemptLabels` and `onlyLabels` are both empty. -/
def bothEmptyConfig : Config :=
  ⟨"https://jira.example.com", "AB", 90, 14, [], [],
   "lifecycle-stale", "mark", "unmark", "Done", "close", 100⟩

/-- A non-done issue with no labels, last updated 120 days before the
evaluation time, and no changelog. -/
def staleCandidateIssue : Issue :=
  ⟨"TEST-1", [], ⟨⟨""⟩⟩, -(86400000000000 * 120), none⟩

/-- C1: at the failing input — both label filters empty, a non-done issue
120 days stale — `IssueOperation` returns `None` (since `HasAll` over the
empty `onlyLabels` list is vacuously true, the eligibility filter excludes
every issue), while the staleness steps the claim says evaluation proceeds
to would return `AddStaleLabel`. -/
theorem c1_bothLabelFiltersEmpty_alwaysNone :
    bothEmptyConfig.exemptLabels = [] ∧ bothEmptyConfig.onlyLabels = [] ∧
    staleCandidateIssue.status.statusCategory.key ≠ statusCategoryComplete ∧
    IssueOperation bothEmptyConfig 0 staleCandidateIssue = Operation.None ∧
    stalenessSteps bothEmptyConfig 0 staleCandidateIssue staleCandidateIssue.labels =
      Operation.AddStaleLabel := by
  decide

/-! ## Claim C2 -/

/-- A done-status issue bearing the stale label, with no changelog. -/
def doneStaleIssue : Issue :=
  ⟨"TEST-2", ["lifecycle-stale"], ⟨⟨"done"⟩⟩, 0, none⟩

/-- C2 counterexample: this issue bears `staleLabel` and its (absent)
changelog does not add the stale label, yet `IssueOperation` does not return
`RemoveStaleLabel` (its status category is "done", so it returns `None`). -/
theorem c2_counterexample_done_status :
    hasLabel doneStaleIssue.labels exampleConfig.staleLabel = true ∧
    lastUpdateAddedStaleLabel doneStaleIssue exampleConfig.staleLabel = false ∧
    IssueOperation exampleConfig 0 doneStaleIssue ≠ Operation.RemoveStaleLabel := by
  decide

/-- C2 (amended): for every *eligible* issue — non-done status, falling
through the label eligibility filter — whose label set contains `staleLabel`
and whose last changelog history entry does not add `staleLabel` under the
tokenized comparison (including no changelog or no labels item),
`IssueOperation` returns `RemoveStaleLabel`, regardless of the elapsed time
since the last update. -/
theorem c2_amended_remove_stale_label (c : Config) (now : Int) (i : Issue)
    (helig : Eligible c i)
    (hstale : hasLabel i.labels c.staleLabel = true)
    (hlast : lastUpdateAddedStaleLabel i c.staleLabel = false) :
    IssueOperation c now i = Operation.RemoveStaleLabel := by
  rw [eligible_issueOperation c now i helig]
  unfold stalenessSteps
  rw [hstale, hlast]
  simp

/-- An eligible issue bearing the stale label, updated at the evaluation
instant, whose last changelog entry changed unrelated labels. -/
def removeCandidateIssue : Issue :=
  ⟨"TEST-3", ["lifecycle-stale"], ⟨⟨""⟩⟩, 0, some otherChangelog⟩

/-- Witness for the amended C2: the issue was updated "now" and still gets
`RemoveStaleLabel`. -/
theorem c2_amended_remove_stale_label_witness :
    IssueOperation exampleConfig 0 removeCandidateIssue = Operation.RemoveStaleLabel :=
  c2_amended_remove_stale_label exampleConfig 0 removeCandidateIssue
    (by constructor <;> decide) (by decide) (by decide)

/-! ## Claims C3 and C4 -/

theorem int64Wrap_eq_self (n : Int)
    (h1 : -9223372036854775808 ≤ n) (h2 : n < 9223372036854775808) :
    int64Wrap n = n := by
  unfold int64Wrap
  omega

/-- For day counts whose nanosecond duration fits in `int64` (up to 106751
days, about 292 years), the comparison threshold is exactly `days` days
before `now`. -/
theorem staleThreshold_eq (now days : Int)
    (h1 : 0 < days) (h2 : days ≤ 106751) :
    staleThreshold now days = now - 86400000000000 * days := by
  unfold staleThreshold hourNs
  rw [show -(3600000000000 * 24) * days = -(86400000000000 * days) by ring,
    int64Wrap_eq_self _ (by omega) (by omega)]
  omega

/-- C3: for every eligible issue lacking `staleLabel` (with a day count in
the `int64`-representable range), being last updated exactly
`daysUntilStale` days before `now` yields `AddStaleLabel` (the non-strict
boundary), while being updated one second later — one second less than
`daysUntilStale` days ago — yields `None`. -/
theorem c3_add_stale_boundary (c : Config) (now : Int) (i : Issue)
    (helig : Eligible c i)
    (hstale : hasLabel i.labels c.staleLabel = false)
    (hpos : 0 < c.daysUntilStale) (hbound : c.daysUntilStale ≤ 106751) :
    (i.updated = now - 86400000000000 * c.daysUntilStale →
       IssueOperation c now i = Operation.AddStaleLabel) ∧
    (i.updated = now - 86400000000000 * c.daysUntilStale + 1000000000 →
       IssueOperation c now i = Operation.None) := by
  rw [eligible_issueOperation c now i helig]
  unfold stalenessSteps
  rw [hstale, staleThreshold_eq now c.daysUntilStale hpos hbound]
  have hcond : (!false) = true := by decide
  rw [if_pos hcond]
  constructor
  · intro hu
    rw [hu]
    simp
  · intro hu
    rw [hu]
    rw [if_pos (show now - 86400000000000 * c.daysUntilStale + 1000000000 >
      now - 86400000000000 * c.daysUntilStale by omega)]

/-- An eligible unlabeled issue last updated exactly 90 days before time 0. -/
def boundaryStaleIssue : Issue :=
  ⟨"TEST-4", [], ⟨⟨""⟩⟩, -(86400000000000 * 90), none⟩

/-- The same issue updated one second later. -/
def justInsideStaleIssue : Issue :=
  ⟨"TEST-5", [], ⟨⟨""⟩⟩, -(86400000000000 * 90) + 1000000000, none⟩

/-- Witness for C3 with `daysUntilStale = 90` at both boundary inputs. -/
theorem c3_add_stale_boundary_witness :
    IssueOperation exampleConfig 0 boundaryStaleIssue = Operation.AddStaleLabel ∧
    IssueOperation exampleConfig 0 justInsideStaleIssue = Operation.None :=
  ⟨(c3_add_stale_boundary exampleConfig 0 boundaryStaleIssue
      (by constructor <;> decide) (by decide) (by decide) (by decide)).1 (by decide),
   (c3_add_stale_boundary exampleConfig 0 justInsideStaleIssue
      (by constructor <;> decide) (by decide) (by decide) (by decide)).2 (by decide)⟩

/-- C4: for every eligible issue bearing `staleLabel` whose last
labels-changelog entry added it (with a day count in the
`int64`-representable range), being last updated exactly `daysUntilClose`
days before `now` yields `Close`, while one second less than that yields
`None`. -/
theorem c4_close_boundary (c : Config) (now : Int) (i : Issue)
    (helig : Eligible c i)
    (hstale : hasLabel i.labels c.staleLabel = true)
    (hlast : lastUpdateAddedStaleLabel i c.staleLabel = true)
    (hpos : 0 < c.daysUntilClose) (hbound : c.daysUntilClose ≤ 106751) :
    (i.updated = now - 86400000000000 * c.daysUntilClose →
       IssueOperation c now i = Operation.Close) ∧
    (i.updated = now - 86400000000000 * c.daysUntilClose + 1000000000 →
       IssueOperation c now i = Operation.None) := by
  rw [eligible_issueOperation c now i helig]
  unfold stalenessSteps
  rw [hstale, hlast, staleThreshold_eq now c.daysUntilClose hpos hbound]
  have hcondNeg : ¬((!true) = true) := by decide
  rw [if_neg hcondNeg, if_pos rfl]
  constructor
  · intro hu
    rw [hu]
    simp
  · intro hu
    rw [hu]
    rw [if_pos (show now - 86400000000000 * c.daysUntilClose + 1000000000 >
      now - 86400000000000 * c.daysUntilClose by omega)]

/-- An eligible stale-labeled issue, marked by its last changelog entry,
last updated exactly 14 days before time 0. -/
def boundaryCloseIssue : Issue :=
  ⟨"TEST-6", ["lifecycle-stale"], ⟨⟨""⟩⟩, -(86400000000000 * 14), some addedChangelog⟩

/-- The same issue updated one second later. -/
def justInsideCloseIssue : Issue :=
  ⟨"TEST-7", ["lifecycle-stale"], ⟨⟨""⟩⟩, -(86400000000000 * 14) + 1000000000,
   some addedChangelog⟩

/-- Witness for C4 with `daysUntilClose = 14` at both boundary inputs. -/
theorem c4_close_boundary_witness :
    IssueOperation exampleConfig 0 boundaryCloseIssue = Operation.Close ∧
    IssueOperation exampleConfig 0 justInsideCloseIssue = Operation.None :=
  ⟨(c4_close_boundary exampleConfig 0 boundaryCloseIssue
      (by constructor <;> decide) (by decide) (by decide) (by decide) (by decide)).1 (by decide),
   (c4_close_boundary exampleConfig 0 justInsideCloseIssue
      (by constructor <;> decide) (by decide) (by decide) (by decide) (by decide)).2 (by decide)⟩

/-! ## Claim C5 -/

/-- A minimal config run through `setDefaults`, so `limitPerRun` takes its
default value 100. -/
def c5Config : Config :=
  setDefaults
    ⟨"https://jira.example.com", "AB", 0, 0, [], ["lifecycle-frozen"],
     "", "", "", "Done", "close", 0⟩

/-- An eligible unlabeled issue last updated 120 days before time 0. -/
def c5Issue : Issue :=
  ⟨"TEST-8", [], ⟨⟨""⟩⟩, -(86400000000000 * 120), none⟩

/-- C5: at the failing input — the defaulted config (`limitPerRun = 100`)
and a result set of 101 issues that each evaluate to `AddStaleLabel` — the
run loop dispatches 101 operations: `Run` never consults `limitPerRun`, so
the number of dispatched operations exceeds the configured cap. -/
theorem c5_limitPerRun_not_enforced :
    c5Config.limitPerRun = 100 ∧
    IssueOperation c5Config 0 c5Issue = Operation.AddStaleLabel ∧
    (runLoop c5Config 0 noTransitions false false alwaysConfirm
        (List.replicate 101 c5Issue)).1.length = 101 := by
  set_option maxRecDepth 4000 in decide

/-! ## Claim C6 -/

/-- C6: whenever the run loop dispatches `AddStaleLabel`, the mark comment
is posted first and the label-add update second; symmetrically for
`RemoveStaleLabel` with the unmark comment and the label-remove update. -/
theorem c6_dispatch_order (c : Config) (now : Int) (tf : String → List Transition)
    (confirm : Operation → Issue → Bool) (i : Issue) (rest : List Issue) :
    (IssueOperation c now i = Operation.AddStaleLabel →
      (runLoop c now tf false false confirm (i :: rest)).2.1 =
        ClientCall.addComment c.markComment :: ClientCall.updateAddLabel c.staleLabel ::
          (runLoop c now tf false false confirm rest).2.1) ∧
    (IssueOperation c now i = Operation.RemoveStaleLabel →
      (runLoop c now tf false false confirm (i :: rest)).2.1 =
        ClientCall.addComment c.unmarkComment :: ClientCall.updateRemoveLabel c.staleLabel ::
          (runLoop c now tf false false confirm rest).2.1) := by
  rcases hr : runLoop c now tf false false confirm rest with ⟨ops, restCalls, err⟩
  constructor
  · intro hop
    simp only [runLoop, hop, hr]
    simp [dispatchOp, addStaleLabelCalls]
  · intro hop
    simp only [runLoop, hop, hr]
    simp [dispatchOp, removeStaleLabelCalls]

/-- Witness for C6: single-issue runs producing each operation. -/
theorem c6_dispatch_order_witness :
    (runLoop exampleConfig 0 noTransitions false false alwaysConfirm
        [boundaryStaleIssue]).2.1 =
      ClientCall.addComment exampleConfig.markComment ::
        ClientCall.updateAddLabel exampleConfig.staleLabel ::
          (runLoop exampleConfig 0 noTransitions false false alwaysConfirm []).2.1 ∧
    (runLoop exampleConfig 0 noTransitions false false alwaysConfirm
        [removeCandidateIssue]).2.1 =
      ClientCall.addComment exampleConfig.unmarkComment ::
        ClientCall.updateRemoveLabel exampleConfig.staleLabel ::
          (runLoop exampleConfig 0 noTransitions false false alwaysConfirm []).2.1 :=
  ⟨(c6_dispatch_order exampleConfig 0 noTransitions alwaysConfirm
      boundaryStaleIssue []).1 (by decide),
   (c6_dispatch_order exampleConfig 0 noTransitions alwaysConfirm
      removeCandidateIssue []).2 (by decide)⟩

/-! ## Claim C8 -/

/-- C8: the `Close` dispatch resolves the first transition whose target
status name equals `closeStatus` and, when one exists, executes it before
posting the close comment; when none exists it stops after the transition
lookup with the "no transition found" error, performing neither the
transition nor the comment. -/
theorem c8_close_dispatch (c : Config) (ts : List Transition) :
    ((∃ t ∈ ts, t.toName = c.closeStatus) →
       ∃ t, ts.find? (fun t => t.toName = c.closeStatus) = some t ∧
         closeIssueCalls c ts =
           ([ClientCall.getTransitions, ClientCall.doTransition t.id,
             ClientCall.addComment c.closeComment], none)) ∧
    ((∀ t ∈ ts, t.toName ≠ c.closeStatus) →
       closeIssueCalls c ts =
         ([ClientCall.getTransitions],
          some ("get transition ID: no transition found to status " ++
            quoteString c.closeStatus))) := by
  constructor
  · intro hex
    rcases ho : ts.find? (fun t => t.toName = c.closeStatus) with _ | t
    · exfalso
      rcases hex with ⟨t, ht, he⟩
      have hn := List.find?_eq_none.mp ho t ht
      simp only [decide_eq_true_eq] at hn
      exact hn he
    · exact ⟨t, ho, by unfold closeIssueCalls transitionID; rw [ho]⟩
  · intro hall
    have ho : ts.find? (fun t => t.toName = c.closeStatus) = none := by
      rw [List.find?_eq_none]
      intro t ht
      simp only [decide_eq_true_eq]
      exact hall t ht
    unfold closeIssueCalls transitionID
    rw [ho]
    rfl

/-- A transition table containing two transitions to the close status; the
first one (id "5") must be chosen. -/
def transitionsWithClose : List Transition :=
  [⟨"2", "In Progress"⟩, ⟨"5", "Done"⟩, ⟨"7", "Done"⟩]

/-- A transition table with no transition to the close status. -/
def transitionsWithoutClose : List Transition :=
  [⟨"2", "In Progress"⟩]

/-- Witness for C8: both the found and the not-found case at concrete
transition tables (`exampleConfig.closeStatus = "Done"`). -/
theorem c8_close_dispatch_witness :
    closeIssueCalls exampleConfig transitionsWithClose =
      ([ClientCall.getTransitions, ClientCall.doTransition "5",
        ClientCall.addComment exampleConfig.closeComment], none) ∧
    closeIssueCalls exampleConfig transitionsWithoutClose =
      ([ClientCall.getTransitions],
       some ("get transition ID: no transition found to status " ++
         quoteString exampleConfig.closeStatus)) := by
  constructor
  · obtain ⟨t, hfind, heq⟩ :=
      (c8_close_dispatch exampleConfig transitionsWithClose).1
        ⟨⟨"5", "Done"⟩, by decide, rfl⟩
    have ht : t = (⟨"5", "Done"⟩ : Transition) := by
      rw [show transitionsWithClose.find?
            (fun t => t.toName = exampleConfig.closeStatus) =
          some (⟨"5", "Done"⟩ : Transition) from by decide] at hfind
      exact (Option.some.inj hfind).symm
    rw [heq, ht]
  · exact (c8_close_dispatch exampleConfig transitionsWithoutClose).2 (by decide)

/-! ## Claim C10 -/

/-- C10: under a config with empty `exemptLabels` and non-empty
`onlyLabels`, every non-done issue satisfying the label clauses the query
builder emits (one `labels = l` clause per `onlyLabel`) is mapped to `None`
by `IssueOperation`: the query selects exactly issues the evaluator never
acts on. -/
theorem c10_onlyLabels_query_inert (c : Config) (now : Int) (i : Issue)
    (hex : c.exemptLabels = []) (honly : c.onlyLabels ≠ [])
    (hdone : i.status.statusCategory.key ≠ statusCategoryComplete)
    (hsat : ∀ cl ∈ exemptOrOnlyLabels c, satisfiesClause i cl = true) :
    IssueOperation c now i = Operation.None := by
  have hall : hasAllLabels i.labels c.onlyLabels = true := by
    unfold hasAllLabels
    rw [List.all_eq_true]
    intro l hl
    have hcl : JQLClause.labelsEq l ∈ exemptOrOnlyLabels c := by
      unfold exemptOrOnlyLabels
      rw [hex]
      rw [if_neg (by decide), if_pos (List.length_pos.mpr honly)]
      exact List.mem_map_of_mem _ hl
    simpa [satisfiesClause] using hsat _ hcl
  unfold IssueOperation
  rw [if_neg hdone]
  rw [if_neg (by rw [hex]; decide), if_pos hall]

/-- A valid `onlyLabels` configuration. -/
def onlyLabelsConfig : Config :=
  ⟨"https://jira.example.com", "AB", 90, 14, ["check-stale", "stalebot-allow"], [],
   "lifecycle-stale", "mark", "unmark", "Done", "close", 100⟩

/-- A long-untouched issue carrying all of the `onlyLabels`. -/
def onlyLabeledIssue : Issue :=
  ⟨"TEST-10", ["check-stale", "stalebot-allow"], ⟨⟨""⟩⟩,
   -(86400000000000 * 120), none⟩

/-- Witness for C10 at a concrete `onlyLabels` config and issue. -/
theorem c10_onlyLabels_query_inert_witness :
    IssueOperation onlyLabelsConfig 0 onlyLabeledIssue = Operation.None :=
  c10_onlyLabels_query_inert onlyLabelsConfig 0 onlyLabeledIssue
    (by decide) (by decide) (by decide) (by decide)

/-! ## Claim C7 -/

theorem ite_singleton_eq_nil {p : Prop} [Decidable p] (m : String) :
    ((if p then [m] else []) = []) ↔ ¬p := by
  by_cases h : p <;> simp [h]

theorem newAggregateError_eq_none (errs : List String) :
    newAggregateError errs = none ↔ errs = [] := by
  cases errs with
  | nil => simp [newAggregateError]
  | cons a t => cases t <;> simp [newAggregateError]

theorem validateErrors_eq_nil (c : Config) :
    validateErrors c = [] ↔
      (c.jiraBaseURL ≠ "" ∧ isValidProjectKey c.project = true ∧
       ¬(c.onlyLabels ≠ [] ∧ c.exemptLabels ≠ []) ∧
       (∀ l ∈ c.onlyLabels, isValidLabel l = true) ∧
       (∀ l ∈ c.exemptLabels, isValidLabel l = true) ∧
       isValidLabel c.staleLabel = true ∧
       isValidStatusName c.closeStatus = true) := by
  unfold validateErrors
  simp only [List.append_eq_nil, ite_singleton_eq_nil, List.filterMap_eq_nil_iff,
    Bool.not_eq_true', Bool.not_eq_false, Bool.and_eq_true, decide_eq_true_eq,
    gt_iff_lt, List.length_pos, ite_eq_right_iff, reduceCtorEq, imp_false,
    not_and, and_assoc]

/-- C7 (amended): `Validate` returns no error exactly when the stated
invariants hold *and* `jiraBaseURL` is non-empty (the validator also checks
that field, which the claim's invariant list omits); and each violated
invariant contributes its own message to the collected error list, so
several violations are reported together. -/
theorem c7_validate_characterization (c : Config) :
    (Validate c = none ↔
      (c.jiraBaseURL ≠ "" ∧ isValidProjectKey c.project = true ∧
       ¬(c.onlyLabels ≠ [] ∧ c.exemptLabels ≠ []) ∧
       (∀ l ∈ c.onlyLabels, isValidLabel l = true) ∧
       (∀ l ∈ c.exemptLabels, isValidLabel l = true) ∧
       isValidLabel c.staleLabel = true ∧
       isValidStatusName c.closeStatus = true)) ∧
    (c.jiraBaseURL = "" →
      "config must specify `jiraBaseURL`" ∈ validateErrors c) ∧
    (isValidProjectKey c.project = false →
      "config must specify valid project key (two or more uppercase letters)" ∈
        validateErrors c) ∧
    (c.onlyLabels ≠ [] → c.exemptLabels ≠ [] →
      "config must not specify both onlyLabels and exemptLabels" ∈ validateErrors c) ∧
    (∀ l ∈ c.onlyLabels, isValidLabel l = false →
      "config contains invalid label `" ++ l ++ "` in onlyLabels" ∈ validateErrors c) ∧
    (∀ l ∈ c.exemptLabels, isValidLabel l = false →
      "config contains invalid label `" ++ l ++ "` in exemptLabels" ∈ validateErrors c) ∧
    (isValidLabel c.staleLabel = false →
      "config must not specify invalid staleLabel `" ++ c.staleLabel ++ "`" ∈
        validateErrors c) ∧
    (isValidStatusName c.closeStatus = false →
      "config must not specify invalid closeStatus `" ++ c.closeStatus ++ "`" ∈
        validateErrors c) := by
  refine ⟨?_, ?_, ?_, ?_, ?_, ?_, ?_, ?_⟩
  · rw [Validate, newAggregateError_eq_none]
    exact validateErrors_eq_nil c
  · intro h
    unfold validateErrors
    rw [if_pos h]
    simp
  · intro h
    unfold validateErrors
    rw [if_pos (show (!(isValidProjectKey c.project)) = true by rw [h]; rfl)]
    simp
  · intro ho he
    unfold validateErrors
    rw [if_pos (show (c.onlyLabels.length > 0 && c.exemptLabels.length > 0) = true by
      simp only [Bool.and_eq_true, decide_eq_true_eq, gt_iff_lt, List.length_pos]
      exact ⟨ho, he⟩)]
    simp
  · intro l hl hlf
    have hmem : ("config contains invalid label `" ++ l ++ "` in onlyLabels") ∈
        c.onlyLabels.filterMap (fun l =>
          if !(isValidLabel l) then
            some ("config contains invalid label `" ++ l ++ "` in onlyLabels")
          else none) := by
      rw [List.mem_filterMap]
      exact ⟨l, hl, by rw [if_pos (by rw [hlf]; rfl)]⟩
    unfold validateErrors
    simp only [List.mem_append]
    tauto
  · intro l hl hlf
    have hmem : ("config contains invalid label `" ++ l ++ "` in exemptLabels") ∈
        c.exemptLabels.filterMap (fun l =>
          if !(isValidLabel l) then
            some ("config contains invalid label `" ++ l ++ "` in exemptLabels")
          else none) := by
      rw [List.mem_filterMap]
      exact ⟨l, hl, by rw [if_pos (by rw [hlf]; rfl)]⟩
    unfold validateErrors
    simp only [List.mem_append]
    tauto
  · intro h
    unfold validateErrors
    rw [if_pos (show (!(isValidLabel c.staleLabel)) = true by rw [h]; rfl)]
    simp
  · intro h
    unfold validateErrors
    rw [if_pos (show (!(isValidStatusName c.closeStatus)) = true by rw [h]; rfl)]
    simp

/-- Modelled from the spec: the invariant list the claim states for config
validation — valid project key, valid labels in `onlyLabels`,
`exemptLabels` and `staleLabel`, valid (non-empty, quote-free)
`closeStatus`, and not both label filters non-empty.  It deliberately does
not mention `jiraBaseURL`. -/
def specStatedInvariants (c : Config) : Bool :=
  isValidProjectKey c.project &&
    c.onlyLabels.all isValidLabel &&
    c.exemptLabels.all isValidLabel &&
    isValidLabel c.staleLabel &&
    isValidStatusName c.closeStatus &&
    !(c.onlyLabels.length > 0 && c.exemptLabels.length > 0)

/-- A config satisfying every invariant the claim lists, but with an empty
`jiraBaseURL`. -/
def emptyBaseURLConfig : Config :=
  ⟨"", "AB", 90, 14, [], [], "lifecycle-stale", "mark", "unmark", "Done", "close", 100⟩

/-- C7 counterexample: all invariants the claim states hold for this config,
yet `Validate` returns an error (it also requires a non-empty
`jiraBaseURL`), so "no error exactly when all stated invariants hold" is
false as stated. -/
theorem c7_counterexample_baseURL :
    specStatedInvariants emptyBaseURLConfig = true ∧
    Validate emptyBaseURLConfig ≠ none := by
  decide

/-- A config violating two invariants at once. -/
def doublyInvalidConfig : Config :=
  ⟨"", "ab", 90, 14, [], [], "lifecycle-stale", "mark", "unmark", "Done", "close", 100⟩

/-- Witness for the amended C7: at a config violating the `jiraBaseURL` and
project-key invariants simultaneously, both messages are collected. -/
theorem c7_validate_characterization_witness :
    "config must specify `jiraBaseURL`" ∈ validateErrors doublyInvalidConfig ∧
    "config must specify valid project key (two or more uppercase letters)" ∈
      validateErrors doublyInvalidConfig :=
  ⟨(c7_validate_characterization doublyInvalidConfig).2.1 (by decide),
   (c7_validate_characterization doublyInvalidConfig).2.2.1 (by decide)⟩

end Stalebot
